/-
Verification of the WSDL resolution/navigation engine (wsdl-rs).
The XML tree (provided by roxmltree) is embedded as an arena of element
nodes indexed by natural numbers; each node records its tag namespace and
local name, its attributes, its in-scope namespace declarations, its
parent index and its child indices. Upward-walking loops take an explicit
fuel argument (the real arena guarantees termination; theorems quantify
over fuel or supply enough of it).
-/
import Mathlib

instance {ε α : Type} [DecidableEq ε] [DecidableEq α] : DecidableEq (Except ε α) := fun a b =>
  match a, b with
  | .ok x, .ok y =>
    if h : x = y then isTrue (by rw [h]) else isFalse (fun hh => by cases hh; exact h rfl)
  | .error x, .error y =>
    if h : x = y then isTrue (by rw [h]) else isFalse (fun hh => by cases hh; exact h rfl)
  | .ok _, .error _ => isFalse (fun hh => by cases hh)
  | .error _, .ok _ => isFalse (fun hh => by cases hh)

/-- One XML element node, as exposed by the parser collaborator. -/
structure ElemData where
  nsUri : Option String
  tag : String
  attrs : List (String × String)
  nss : List (Option String × String)
  parent : Option Nat
  children : List Nat
deriving DecidableEq, Repr

/-- A parsed document: an arena of element nodes. -/
structure XDoc where
  nodes : List ElemData
deriving DecidableEq, Repr

def XDoc.get (d : XDoc) (i : Nat) : Option ElemData :=
  d.nodes[i]?

/-- Attribute lookup by local name on one element (roxmltree `attribute`). -/
def ElemData.attr (e : ElemData) (nm : String) : Option String :=
  (e.attrs.find? (fun p => p.1 == nm)).map (fun p => p.2)

def attrOf (d : XDoc) (i : Nat) (nm : String) : Option String :=
  (d.get i).bind (fun e => e.attr nm)

def parentOf (d : XDoc) (i : Nat) : Option Nat :=
  (d.get i).bind (fun e => e.parent)

def childList (d : XDoc) (i : Nat) : List Nat :=
  match d.get i with
  | some e => e.children
  | none => []

/-- roxmltree `has_tag_name((uri, local))`. -/
def hasTagName (d : XDoc) (j : Nat) (uri loc : String) : Bool :=
  match d.get j with
  | some e => e.nsUri == some uri && e.tag == loc
  | none => false

/-- roxmltree `lookup_namespace_uri`: find the URI bound to a given
namespace pfx in the lexical scope of a node. -/
def lookup_namespace_uri (d : XDoc) (i : Nat) (pfx : Option String) : Option String :=
  (d.get i).bind (fun e => (e.nss.find? (fun p => p.1 == pfx)).map (fun p => p.2))

/-- Semantics of Rust `str::split(':')`, accumulator form. -/
def splitColonAux : List Char → List Char → List (List Char)
  | [], acc => [acc.reverse]
  | c :: cs, acc => if c = ':' then acc.reverse :: splitColonAux cs [] else splitColonAux cs (c :: acc)

def splitColon (s : String) : List String :=
  (splitColonAux s.data []).map List.asString

/-- Semantics of Rust `str::contains(":")`. -/
def hasColon (s : String) : Bool :=
  s.data.any (fun c => c == ':')

def wsdlNs : String := "http://schemas.xmlsoap.org/wsdl/"

/-- Error taxonomy (`WsErrorMalformedType` in wsdl.rs). -/
inductive WsErrorMalformedType where
  | MissingAttribute : String → WsErrorMalformedType
  | MissingElement : String → WsErrorMalformedType
deriving DecidableEq, Repr

/-- Error taxonomy (`WsErrorType` in wsdl.rs). -/
inductive WsErrorType where
  | MalformedWsdl : WsErrorMalformedType → WsErrorType
  | InvalidReference : String → WsErrorType
  | NoParentNode : WsErrorType
deriving DecidableEq, Repr

/-- `WsError(NodeId, WsErrorType)`: the node where the fault was detected
plus the typed cause. -/
structure WsError where
  id : Nat
  typ : WsErrorType
deriving DecidableEq, Repr

/-- roxmltree `ExpandedName`: optional namespace URI plus local name. -/
structure ExpandedName where
  uri : Option String
  localName : String
deriving DecidableEq, Repr

def mapErr {β : Type} (i : Nat) : Except WsErrorType β → Except WsError β
  | .ok b => .ok b
  | .error e => .error ⟨i, e⟩

/-- `target_namespace` climbing loop: test each strict ancestor for the
`targetNamespace` attribute. -/
def tnClimb (d : XDoc) : Nat → Option Nat → Option String
  | _, none => none
  | 0, some _ => none
  | fuel+1, some j =>
    match attrOf d j "targetNamespace" with
    | some v => some v
    | none => tnClimb d fuel (parentOf d j)

/-- `target_namespace` (wsdl.rs 39-56): walk parents until the attribute is
found; on failure the error carries the original node's id. -/
def target_namespace (d : XDoc) (fuel i : Nat) : Except WsError String :=
  match tnClimb d fuel (parentOf d i) with
  | some v => .ok v
  | none => .error ⟨i, .MalformedWsdl (.MissingAttribute "targetNamespace")⟩

/-- `resolve_qualified` (wsdl.rs 58-81). -/
def resolve_qualified (d : XDoc) (i : Nat) (qn : String) : Except WsErrorType ExpandedName :=
  if hasColon qn then
    match splitColon qn with
    | [] => .error (.InvalidReference qn)
    | ns :: rest =>
      match lookup_namespace_uri d i (some ns) with
      | none => .error (.InvalidReference qn)
      | some uri =>
        match rest with
        | [] => .error (.InvalidReference qn)
        | nm :: _ => .ok ⟨some uri, nm⟩
  else .ok ⟨none, qn⟩

/-- `split_qualified` (wsdl.rs 83-102). -/
def split_qualified (qn : String) : Except WsErrorType (Option String × String) :=
  if hasColon qn then
    match splitColon qn with
    | [] => .error (.InvalidReference qn)
    | ns :: rest =>
      match rest with
      | [] => .error (.InvalidReference qn)
      | nm :: _ => .ok (some ns, nm)
  else .ok (none, qn)

/-- Children filtered by namespace-qualified tag, in document order. -/
def tagChildren (d : XDoc) (i : Nat) (uri loc : String) : List Nat :=
  (childList d i).filter (fun j => hasTagName d j uri loc)

/-- `WsDefinitions::from_node`. -/
def WsDefinitions.from_node (d : XDoc) (i : Nat) : Except WsError Nat :=
  if hasTagName d i wsdlNs "definitions" then .ok i
  else .error ⟨i, .MalformedWsdl (.MissingElement "definitions")⟩

/-- `WsDefinitions::find_parent`: climb parents until a `definitions`
element is found; a missing parent is `NoParentNode`. -/
def WsDefinitions.find_parent (d : XDoc) : Nat → Nat → Except WsError Nat
  | 0, i => .error ⟨i, .NoParentNode⟩
  | fuel+1, i =>
    match parentOf d i with
    | none => .error ⟨i, .NoParentNode⟩
    | some p =>
      match WsDefinitions.from_node d p with
      | .ok defi => .ok defi
      | .error _ => WsDefinitions.find_parent d fuel p

def WsDefinitions.messages (d : XDoc) (i : Nat) : Except WsError (List Nat) :=
  .ok (tagChildren d i wsdlNs "message")

def WsDefinitions.port_types (d : XDoc) (i : Nat) : Except WsError (List Nat) :=
  .ok (tagChildren d i wsdlNs "portType")

def WsDefinitions.bindings (d : XDoc) (i : Nat) : Except WsError (List Nat) :=
  .ok (tagChildren d i wsdlNs "binding")

def WsDefinitions.services (d : XDoc) (i : Nat) : Except WsError (List Nat) :=
  .ok (tagChildren d i wsdlNs "service")

def WsMessage.name (d : XDoc) (i : Nat) : Except WsError String :=
  match attrOf d i "name" with
  | some v => .ok v
  | none => .error ⟨i, .MalformedWsdl (.MissingAttribute "name")⟩

def WsMessage.parts (d : XDoc) (i : Nat) : List Nat :=
  tagChildren d i wsdlNs "part"

def WsMessagePart.name (d : XDoc) (i : Nat) : Except WsError String :=
  match attrOf d i "name" with
  | some v => .ok v
  | none => .error ⟨i, .MalformedWsdl (.MissingAttribute "name")⟩

/-- `WsMessagePart::typename` (wsdl.rs 160-173): `element` attribute,
falling back to `type`; the missing-both error names `type`. -/
def WsMessagePart.typename (d : XDoc) (i : Nat) : Except WsError ExpandedName :=
  match (attrOf d i "element").orElse (fun _ => attrOf d i "type") with
  | none => .error ⟨i, .MalformedWsdl (.MissingAttribute "type")⟩
  | some t => mapErr i (resolve_qualified d i t)

def WsPortType.name (d : XDoc) (i : Nat) : Except WsError String :=
  match attrOf d i "name" with
  | some v => .ok v
  | none => .error ⟨i, .MalformedWsdl (.MissingAttribute "name")⟩

def WsPortType.target_namespace (d : XDoc) (fuel i : Nat) : Except WsError String :=
  match tnClimb d fuel (parentOf d i) with
  | some v => .ok v
  | none => .error ⟨i, .MalformedWsdl (.MissingAttribute "targetNamespace")⟩

def WsPortType.operations (d : XDoc) (i : Nat) : Except WsError (List Nat) :=
  .ok (tagChildren d i wsdlNs "operation")

def WsPortOperation.name (d : XDoc) (i : Nat) : Except WsError String :=
  match attrOf d i "name" with
  | some v => .ok v
  | none => .error ⟨i, .MalformedWsdl (.MissingAttribute "name")⟩

/-- `WsPortOperation::input` (wsdl.rs 229-253): a missing `input` child or
a missing `message` attribute both yield `Ok(None)`; an unresolvable
message name yields `InvalidReference`. -/
def WsPortOperation.input (d : XDoc) (fuel i : Nat) : Except WsError (Option Nat) :=
  match ((childList d i).find? (fun j => hasTagName d j wsdlNs "input")).bind
      (fun n => attrOf d n "message") with
  | none => .ok none
  | some mt =>
    match split_qualified mt with
    | .error e => .error ⟨i, e⟩
    | .ok q =>
      match WsDefinitions.find_parent d fuel i with
      | .error e => .error e
      | .ok defi =>
        match WsDefinitions.messages d defi with
        | .error e => .error e
        | .ok ms =>
          match ms.find? (fun m => attrOf d m "name" == some q.2) with
          | some m => .ok (some m)
          | none => .error ⟨i, .InvalidReference q.2⟩

/-- `WsPortOperation::outputs` (wsdl.rs 266-286): children with the
`output` tag, dropping those without `name` or `message` attributes,
those whose reference fails to split, and those naming no message. -/
def WsPortOperation.outputs (d : XDoc) (fuel i : Nat) : Except WsError (List Nat) :=
  match WsDefinitions.find_parent d fuel i with
  | .error e => .error e
  | .ok defi =>
    .ok ((((tagChildren d i wsdlNs "output").filterMap (fun n =>
        (attrOf d n "name").bind (fun nm => (attrOf d n "message").map (fun mt => (nm, mt))))).filterMap
        (fun p =>
          match split_qualified p.2 with
          | .ok q => some (p.1, q.2)
          | .error _ => none)).filterMap (fun p =>
        match WsDefinitions.messages d defi with
        | .error _ => none
        | .ok ms => ms.find? (fun m => attrOf d m "name" == some p.2)))

/-- `WsPortOperation::faults` (wsdl.rs 299-319). -/
def WsPortOperation.faults (d : XDoc) (fuel i : Nat) : Except WsError (List Nat) :=
  match WsDefinitions.find_parent d fuel i with
  | .error e => .error e
  | .ok defi =>
    .ok ((((tagChildren d i wsdlNs "fault").filterMap (fun n =>
        (attrOf d n "name").bind (fun nm => (attrOf d n "message").map (fun mt => (nm, mt))))).filterMap
        (fun p =>
          match split_qualified p.2 with
          | .ok q => some (p.1, q.2)
          | .error _ => none)).filterMap (fun p =>
        match WsDefinitions.messages d defi with
        | .error _ => none
        | .ok ms => ms.find? (fun m => attrOf d m "name" == some p.2)))

/-- Outcome of a Rust function that may `panic!`: the panicking control
flow aborts the whole process, so it is modelled as a third outcome
distinct from `Ok` and `Err`. -/
inductive POutcome (α : Type) where
  | ok : α → POutcome α
  | err : WsError → POutcome α
  | panic : String → POutcome α
deriving DecidableEq, Repr

/-- `WsPortOperation::output` (wsdl.rs 256-263): takes the first element
of `outputs()` and `panic!`s when a second one exists. -/
def WsPortOperation.output (d : XDoc) (fuel i : Nat) : POutcome (Option Nat) :=
  match WsPortOperation.outputs d fuel i with
  | .error e => .err e
  | .ok os =>
    match os with
    | [] => .ok none
    | [o] => .ok (some o)
    | _ :: _ :: _ =>
      match WsPortOperation.name d i with
      | .error e => .err e
      | .ok nm => .panic ("Multiple output messages found for operation " ++ nm)

/-- `WsPortOperation::fault` (wsdl.rs 289-296). -/
def WsPortOperation.fault (d : XDoc) (fuel i : Nat) : POutcome (Option Nat) :=
  match WsPortOperation.faults d fuel i with
  | .error e => .err e
  | .ok fs =>
    match fs with
    | [] => .ok none
    | [o] => .ok (some o)
    | _ :: _ :: _ =>
      match WsPortOperation.name d i with
      | .error e => .err e
      | .ok nm => .panic ("Multiple fault messages found for operation " ++ nm)

def WsBinding.name (d : XDoc) (i : Nat) : Except WsError String :=
  match attrOf d i "name" with
  | some v => .ok v
  | none => .error ⟨i, .MalformedWsdl (.MissingAttribute "name")⟩

/-- `WsBinding::port_type` (wsdl.rs 382-398). -/
def WsBinding.port_type (d : XDoc) (fuel i : Nat) : Except WsError Nat :=
  match attrOf d i "type" with
  | none => .error ⟨i, .MalformedWsdl (.MissingAttribute "type")⟩
  | some pt =>
    match split_qualified pt with
    | .error e => .error ⟨i, e⟩
    | .ok q =>
      match WsDefinitions.find_parent d fuel i with
      | .error e => .error e
      | .ok defi =>
        match WsDefinitions.port_types d defi with
        | .error e => .error e
        | .ok pts =>
          match pts.find? (fun n => attrOf d n "name" == some q.2) with
          | some p => .ok p
          | none => .error ⟨i, .InvalidReference q.2⟩

def WsBinding.operations (d : XDoc) (i : Nat) : Except WsError (List Nat) :=
  .ok (tagChildren d i wsdlNs "operation")

def WsBindingOperation.name (d : XDoc) (i : Nat) : Except WsError String :=
  match attrOf d i "name" with
  | some v => .ok v
  | none => .error ⟨i, .MalformedWsdl (.MissingAttribute "name")⟩

/-- The `for op in port_type.operations()` search loop of
`WsBindingOperation::port_operation`. -/
def findOpLoop (d : XDoc) (i : Nat) (nm : String) : List Nat → Except WsError Nat
  | [] => .error ⟨i, .MalformedWsdl (.MissingElement nm)⟩
  | op :: rest =>
    match WsPortOperation.name d op with
    | .error e => .error e
    | .ok s => if s = nm then .ok op else findOpLoop d i nm rest

/-- `WsBindingOperation::port_operation` (wsdl.rs 341-360). -/
def WsBindingOperation.port_operation (d : XDoc) (fuel i : Nat) : Except WsError Nat :=
  match WsBindingOperation.name d i with
  | .error e => .error e
  | .ok nm =>
    match parentOf d i with
    | none => .error ⟨i, .NoParentNode⟩
    | some b =>
      match WsBinding.port_type d fuel b with
      | .error e => .error e
      | .ok pt =>
        match WsPortType.operations d pt with
        | .error e => .error e
        | .ok ops => findOpLoop d i nm ops

def WsServicePort.name (d : XDoc) (i : Nat) : Except WsError String :=
  match attrOf d i "name" with
  | some v => .ok v
  | none => .error ⟨i, .MalformedWsdl (.MissingAttribute "name")⟩

def WsService.name (d : XDoc) (i : Nat) : Except WsError String :=
  match attrOf d i "name" with
  | some v => .ok v
  | none => .error ⟨i, .MalformedWsdl (.MissingAttribute "name")⟩

def WsService.ports (d : XDoc) (i : Nat) : Except WsError (List Nat) :=
  .ok (tagChildren d i wsdlNs "port")

def soapNs : String := "http://schemas.xmlsoap.org/wsdl/soap/"

def soap12Ns : String := "http://schemas.xmlsoap.org/wsdl/soap12/"

def httpNs : String := "http://schemas.xmlsoap.org/wsdl/http/"

/-- Modelled from the spec: the closed transport-detail variant set of the
transport classifier. The classifier (`transport_operation` and this result
type) belongs to this repository but is absent from src/, where only the
example driver calling it appears. -/
inductive WsBindingTransportOperation where
  | Soap : String → WsBindingTransportOperation
  | Soap12 : String → WsBindingTransportOperation
  | Http : String → WsBindingTransportOperation
deriving DecidableEq, Repr

/-- Modelled from the spec: the error causes the transport classifier can
report (the src/ error taxonomy lacks the namespace-related kinds). -/
inductive WsTransportErrorType where
  | MissingAttribute : String → WsTransportErrorType
  | MissingElement : String → WsTransportErrorType
  | MissingNamespace : WsTransportErrorType
  | InvalidReference : String → WsTransportErrorType
  | InvalidNamespace : String → WsTransportErrorType
deriving DecidableEq, Repr

/-- The nested element named `operation` inside a BindingOperation. -/
def firstOperationChild (d : XDoc) (i : Nat) : Option Nat :=
  (childList d i).find? (fun j =>
    match d.get j with
    | some e => e.tag == "operation"
    | none => false)

/-- Modelled from the spec: `transport_operation` is missing from src/;
per the spec, the namespace of the nested `operation` element selects the
protocol variant, a mandatory `soapAction`/`location` attribute is
extracted, an unrecognized namespace is `InvalidNamespace`, a missing
namespace is `MissingNamespace`, and an absent nested element is
`MissingElement("operation")`. -/
def transport_operation (d : XDoc) (i : Nat) :
    Except WsTransportErrorType WsBindingTransportOperation :=
  match firstOperationChild d i with
  | none => .error (.MissingElement "operation")
  | some j =>
    match d.get j with
    | none => .error (.MissingElement "operation")
    | some e =>
      match e.nsUri with
      | none => .error .MissingNamespace
      | some ns =>
        if ns = soapNs then
          match e.attr "soapAction" with
          | some a => .ok (.Soap a)
          | none => .error (.MissingAttribute "soapAction")
        else if ns = soap12Ns then
          match e.attr "soapAction" with
          | some a => .ok (.Soap12 a)
          | none => .error (.MissingAttribute "soapAction")
        else if ns = httpNs then
          match e.attr "location" with
          | some a => .ok (.Http a)
          | none => .error (.MissingAttribute "location")
        else .error (.InvalidNamespace ns)

/-- Concrete document for the ambiguity defect: one port operation with
two resolvable `output` children and two resolvable `fault` children. -/
def dC1 : XDoc := ⟨[
  ⟨some wsdlNs, "definitions", [], [], none, [1, 2, 3]⟩,
  ⟨some wsdlNs, "message", [("name", "M1")], [], some 0, []⟩,
  ⟨some wsdlNs, "message", [("name", "M2")], [], some 0, []⟩,
  ⟨some wsdlNs, "portType", [("name", "PT")], [], some 0, [4]⟩,
  ⟨some wsdlNs, "operation", [("name", "Op")], [], some 3, [5, 6, 7, 8]⟩,
  ⟨some wsdlNs, "output", [("name", "o1"), ("message", "tns:M1")], [], some 4, []⟩,
  ⟨some wsdlNs, "output", [("name", "o2"), ("message", "tns:M2")], [], some 4, []⟩,
  ⟨some wsdlNs, "fault", [("name", "f1"), ("message", "tns:M1")], [], some 4, []⟩,
  ⟨some wsdlNs, "fault", [("name", "f2"), ("message", "tns:M2")], [], some 4, []⟩]⟩

/-- Concrete document for the silent-skip behaviour: a present `input`
child with no `message` attribute and an `output` child whose reference
names no existing message. -/
def dC2 : XDoc := ⟨[
  ⟨some wsdlNs, "definitions", [], [], none, [1, 2]⟩,
  ⟨some wsdlNs, "message", [("name", "M1")], [], some 0, []⟩,
  ⟨some wsdlNs, "portType", [("name", "PT")], [], some 0, [3]⟩,
  ⟨some wsdlNs, "operation", [("name", "Op")], [], some 2, [4, 5, 6]⟩,
  ⟨some wsdlNs, "input", [], [], some 3, []⟩,
  ⟨some wsdlNs, "output", [("name", "o"), ("message", "tns:Nope")], [], some 3, []⟩,
  ⟨some wsdlNs, "output", [("name", "o2"), ("message", "tns:M1")], [], some 3, []⟩]⟩


/-- Concrete document for qualified-reference resolution: one node whose
scope binds prefix `tns` to URI `U`. -/
def dC3 : XDoc := ⟨[⟨some wsdlNs, "part", [], [(some "tns", "U")], none, []⟩]⟩

/-- Concrete witness document for qualified-reference resolution. -/
def dC3w : XDoc := ⟨[⟨some wsdlNs, "part", [], [(some "tns", "U")], none, []⟩]⟩


/-- Concrete document for the transport classifier: a binding operation
whose nested `operation` element is in the SOAP 1.1 namespace. -/
def dC4 : XDoc := ⟨[
  ⟨some wsdlNs, "operation", [("name", "Op")], [], none, [1]⟩,
  ⟨some soapNs, "operation", [("soapAction", "urn:Foo")], [], some 0, []⟩]⟩


/-- Concrete document for binding-to-portType resolution: one resolvable
binding and one binding missing its `type` attribute. -/
def dC5 : XDoc := ⟨[
  ⟨some wsdlNs, "definitions", [], [], none, [1, 2, 3]⟩,
  ⟨some wsdlNs, "portType", [("name", "PT")], [], some 0, []⟩,
  ⟨some wsdlNs, "binding", [("name", "B"), ("type", "tns:PT")], [], some 0, []⟩,
  ⟨some wsdlNs, "binding", [("name", "B2")], [], some 0, []⟩]⟩


/-- Concrete document for binding-operation-to-port-operation lookup. -/
def dC6 : XDoc := ⟨[
  ⟨some wsdlNs, "definitions", [], [], none, [1, 3]⟩,
  ⟨some wsdlNs, "portType", [("name", "PT")], [], some 0, [2]⟩,
  ⟨some wsdlNs, "operation", [("name", "Op")], [], some 1, []⟩,
  ⟨some wsdlNs, "binding", [("name", "B"), ("type", "tns:PT")], [], some 0, [4]⟩,
  ⟨some wsdlNs, "operation", [("name", "Op")], [], some 3, []⟩]⟩


/-- Concrete document for targetNamespace lookup: the attribute sits two
levels above the port type. -/
def dC7 : XDoc := ⟨[
  ⟨some wsdlNs, "definitions", [("targetNamespace", "TNS")], [], none, [1]⟩,
  ⟨some wsdlNs, "middle", [], [], some 0, [2]⟩,
  ⟨some wsdlNs, "portType", [("name", "PT")], [], some 1, []⟩]⟩

/-- Concrete document with no targetNamespace anywhere. -/
def dC7e : XDoc := ⟨[
  ⟨some wsdlNs, "definitions", [], [], none, [1]⟩,
  ⟨some wsdlNs, "portType", [("name", "PT")], [], some 0, []⟩]⟩


/-- Concrete document exercising all collection accessors from one parent
node. -/
def dC8 : XDoc := ⟨[
  ⟨some wsdlNs, "definitions", [], [], none, [1, 2, 3, 4, 5, 6, 7]⟩,
  ⟨some wsdlNs, "message", [("name", "M")], [], some 0, []⟩,
  ⟨some wsdlNs, "service", [("name", "S")], [], some 0, []⟩,
  ⟨some wsdlNs, "binding", [("name", "B")], [], some 0, []⟩,
  ⟨some wsdlNs, "portType", [("name", "PT")], [], some 0, []⟩,
  ⟨some wsdlNs, "part", [("name", "P")], [], some 0, []⟩,
  ⟨some wsdlNs, "operation", [("name", "Op")], [], some 0, []⟩,
  ⟨some wsdlNs, "port", [("name", "SP")], [], some 0, []⟩]⟩


/-- Concrete document for verbatim name access: the attribute value keeps
its surrounding whitespace. -/
def dC9 : XDoc := ⟨[⟨some wsdlNs, "message", [("name", " Weather ")], [], none, []⟩]⟩


/-- Concrete document for part typename resolution: both `element` and
`type` attributes are present and bind to different namespaces. -/
def dC10 : XDoc := ⟨[
  ⟨some wsdlNs, "part", [("element", "a:Foo"), ("type", "b:Bar")],
    [(some "a", "UA"), (some "b", "UB")], none, []⟩]⟩


/-- The strict-ancestor chain of a node, starting from a given parent
link, truncated by fuel (mirrors the shape of the climbing loops). -/
def ancChain (d : XDoc) : Nat → Option Nat → List Nat
  | _, none => []
  | 0, some _ => []
  | fuel+1, some j => j :: ancChain d fuel (parentOf d j)

theorem tnClimb_eq_findSome (d : XDoc) :
    ∀ (fuel : Nat) (o : Option Nat),
      tnClimb d fuel o = (ancChain d fuel o).findSome? (fun j => attrOf d j "targetNamespace") := by
  intro fuel
  induction fuel with
  | zero => intro o; cases o <;> rfl
  | succ n ih =>
    intro o
    cases o with
    | none => rfl
    | some j =>
      rw [show ancChain d (n+1) (some j) = j :: ancChain d n (parentOf d j) from rfl,
        List.findSome?_cons]
      cases h : attrOf d j "targetNamespace" with
      | some v => simp [tnClimb, h]
      | none => simp [tnClimb, h, ih (parentOf d j)]

theorem tagChildren_spec (d : XDoc) (i : Nat) (uri loc : String) :
    (tagChildren d i uri loc).Sublist (childList d i) ∧
    ∀ j, j ∈ tagChildren d i uri loc ↔ j ∈ childList d i ∧ hasTagName d j uri loc = true :=
  ⟨List.filter_sublist _, fun j => by simp [tagChildren, List.mem_filter]⟩

theorem findOpLoop_not_found (d : XDoc) (i : Nat) (nm : String) (l : List Nat)
    (h : ∀ o ∈ l, ∃ s, WsPortOperation.name d o = .ok s ∧ s ≠ nm) :
    findOpLoop d i nm l = .error ⟨i, .MalformedWsdl (.MissingElement nm)⟩ := by
  induction l with
  | nil => rfl
  | cons op rest ih =>
    obtain ⟨s, hs, hne⟩ := h op (by simp)
    simp [findOpLoop, hs, hne, ih (fun o ho => h o (by simp [ho]))]

theorem findOpLoop_found (d : XDoc) (i : Nat) (nm : String) (l₁ : List Nat) (op : Nat)
    (l₂ : List Nat)
    (h₁ : ∀ o ∈ l₁, ∃ s, WsPortOperation.name d o = .ok s ∧ s ≠ nm)
    (h₂ : WsPortOperation.name d op = .ok nm) :
    findOpLoop d i nm (l₁ ++ op :: l₂) = .ok op := by
  induction l₁ with
  | nil => simp [findOpLoop, h₂]
  | cons o rest ih =>
    obtain ⟨s, hs, hne⟩ := h₁ o (by simp)
    simp [findOpLoop, hs, hne, ih (fun o ho => h₁ o (by simp [ho]))]

/-- Claim C1 (code bug): with two resolvable `output` (resp. `fault`)
children, the multi-result accessors do yield both matches in document
order, but the single-result accessors `output()`/`fault()` hit the
`panic!` branch and abort the process instead of returning the
recoverable ambiguity error the claim requires. -/
theorem c1_code_bug_panic :
    WsPortOperation.outputs dC1 9 4 = .ok [1, 2]
  ∧ WsPortOperation.faults dC1 9 4 = .ok [1, 2]
  ∧ WsPortOperation.output dC1 9 4 = .panic "Multiple output messages found for operation Op"
  ∧ WsPortOperation.fault dC1 9 4 = .panic "Multiple fault messages found for operation Op" := by
  decide

/-- Claim C2 (counterexample): the operation node 3 of `dC2` has a
present `input` child (node 4) with no `message` attribute, yet `input()`
returns `Ok(None)`; its `output` child 5 references the nonexistent
message `tns:Nope`, yet `outputs()` succeeds and silently drops it. -/
theorem c2_counterexample :
    (childList dC2 3).find? (fun j => hasTagName dC2 j wsdlNs "input") = some 4
  ∧ attrOf dC2 4 "message" = none
  ∧ WsPortOperation.input dC2 9 3 = .ok none
  ∧ 5 ∈ tagChildren dC2 3 wsdlNs "output"
  ∧ attrOf dC2 5 "message" = some "tns:Nope"
  ∧ WsPortOperation.outputs dC2 9 3 = .ok [1] := by
  decide

/-- Claim C2 (amended): `input()` returns `Ok(None)` both when the
`input` element is absent and when it is present but its `message`
attribute is missing; only a present `message` attribute that names no
existing message is an `InvalidReference` error. `outputs()`/`faults()`
never signal referential errors at all: once the enclosing definitions
element is found they always succeed, silently skipping children with
missing attributes or unresolvable references. -/
theorem c2_amended_thm (d : XDoc) (fuel i : Nat) :
    (((childList d i).find? (fun j => hasTagName d j wsdlNs "input")).bind
        (fun n => attrOf d n "message") = none →
      WsPortOperation.input d fuel i = .ok none)
  ∧ (∀ n mt q defi, (childList d i).find? (fun j => hasTagName d j wsdlNs "input") = some n →
      attrOf d n "message" = some mt → split_qualified mt = .ok q →
      WsDefinitions.find_parent d fuel i = .ok defi →
      (tagChildren d defi wsdlNs "message").find? (fun m => attrOf d m "name" == some q.2) = none →
      WsPortOperation.input d fuel i = .error ⟨i, .InvalidReference q.2⟩)
  ∧ (∀ defi, WsDefinitions.find_parent d fuel i = .ok defi →
      (∀ e, WsPortOperation.outputs d fuel i ≠ .error e)
      ∧ (∀ e, WsPortOperation.faults d fuel i ≠ .error e)) := by
  refine ⟨fun h => ?_, fun n mt q defi hf hm hs hp hnone => ?_,
    fun defi hp => ⟨fun e => ?_, fun e => ?_⟩⟩
  · simp only [WsPortOperation.input]
    rw [h]
  · simp [WsPortOperation.input, hf, hm, hs, hp, WsDefinitions.messages, hnone]
  · simp only [WsPortOperation.outputs]
    rw [hp]
    exact fun hcon => Except.noConfusion hcon
  · simp only [WsPortOperation.faults]
    rw [hp]
    exact fun hcon => Except.noConfusion hcon

/-- Claim C2 (witness): at the concrete document the amended behaviours
are realized. -/
theorem c2_witness :
    WsPortOperation.input dC2 9 3 = Except.ok none
  ∧ ∀ e, WsPortOperation.outputs dC2 9 3 ≠ Except.error e :=
  ⟨(c2_amended_thm dC2 9 3).1 (by decide), ((c2_amended_thm dC2 9 3).2.2 0 (by decide)).1⟩

/-- Claim C3 (counterexample): with `tns` bound to `U`, the malformed
reference `"tns:"` (empty local part) is not rejected: it resolves to
`(U, "")` instead of failing with `InvalidReference`. -/
theorem c3_counterexample :
    lookup_namespace_uri dC3 0 (some "tns") = some "U"
  ∧ resolve_qualified dC3 0 "tns:" = .ok ⟨some "U", ""⟩ := by
  decide

/-- Claim C3 (amended): for a colon-containing reference whose first
segment is `pfx` and second segment is `nm`, resolution yields
`(U, nm)` when `pfx` is bound to `U` at the node's scope and fails with
`InvalidReference` when `pfx` is unbound (which covers the empty prefix,
never bindable in XML); an empty local part is accepted, and an
unprefixed string yields the bare local name. -/
theorem c3_amended_thm (d : XDoc) (i : Nat) (qn : String) :
    (∀ pfx nm rest U, hasColon qn = true → splitColon qn = pfx :: nm :: rest →
      (lookup_namespace_uri d i (some pfx) = some U →
        resolve_qualified d i qn = .ok ⟨some U, nm⟩)
      ∧ (lookup_namespace_uri d i (some pfx) = none →
        resolve_qualified d i qn = .error (.InvalidReference qn)))
  ∧ (hasColon qn = false → resolve_qualified d i qn = .ok ⟨none, qn⟩) := by
  refine ⟨fun pfx nm rest U hc hs => ⟨fun hl => ?_, fun hl => ?_⟩, fun hc => ?_⟩
  · simp only [resolve_qualified, hc, if_true]
    rw [hs]
    simp [hl]
  · simp only [resolve_qualified, hc, if_true]
    rw [hs]
    simp [hl]
  · simp [resolve_qualified, hc]

/-- Claim C3 (witness): bound prefixes resolve, unbound prefixes fail,
unprefixed names pass through, at the concrete document. -/
theorem c3_witness :
    resolve_qualified dC3w 0 "tns:Foo" = Except.ok ⟨some "U", "Foo"⟩
  ∧ resolve_qualified dC3w 0 "xx:Foo" = Except.error (.InvalidReference "xx:Foo")
  ∧ resolve_qualified dC3w 0 ":Foo" = Except.error (.InvalidReference ":Foo")
  ∧ resolve_qualified dC3w 0 "Bar" = Except.ok ⟨none, "Bar"⟩ :=
  ⟨((c3_amended_thm dC3w 0 "tns:Foo").1 "tns" "Foo" [] "U" (by decide) (by decide)).1 (by decide),
   ((c3_amended_thm dC3w 0 "xx:Foo").1 "xx" "Foo" [] "U" (by decide) (by decide)).2 (by decide),
   ((c3_amended_thm dC3w 0 ":Foo").1 "" "Foo" [] "U" (by decide) (by decide)).2 (by decide),
   (c3_amended_thm dC3w 0 "Bar").2 (by decide)⟩

/-- Claim C4 (spec-modelled): the transport classifier returns exactly
`Soap(soapAction)` for a SOAP 1.1 nested operation element (never
`Soap12` or `Http`), `Soap12(soapAction)` for SOAP 1.2, `Http(location)`
for HTTP, `InvalidNamespace(ns)` for any other namespace,
`MissingNamespace` when the nested element has no namespace, and
`MissingElement("operation")` when it is absent. -/
theorem c4_transport_classifier (d : XDoc) (i : Nat) :
    (firstOperationChild d i = none →
      transport_operation d i = .error (.MissingElement "operation"))
  ∧ (∀ j e, firstOperationChild d i = some j → d.get j = some e →
      (e.nsUri = none → transport_operation d i = .error .MissingNamespace)
    ∧ (∀ a, e.nsUri = some soapNs → e.attr "soapAction" = some a →
        transport_operation d i = .ok (.Soap a))
    ∧ (∀ a, e.nsUri = some soap12Ns → e.attr "soapAction" = some a →
        transport_operation d i = .ok (.Soap12 a))
    ∧ (∀ a, e.nsUri = some httpNs → e.attr "location" = some a →
        transport_operation d i = .ok (.Http a))
    ∧ (∀ ns, e.nsUri = some ns → ns ≠ soapNs → ns ≠ soap12Ns → ns ≠ httpNs →
        transport_operation d i = .error (.InvalidNamespace ns))) := by
  refine ⟨fun h => by simp [transport_operation, h],
    fun j e hj he => ⟨fun hns => ?_, fun a hns ha => ?_, fun a hns ha => ?_,
      fun a hns ha => ?_, fun ns hns h1 h2 h3 => ?_⟩⟩
  · simp [transport_operation, hj, he, hns]
  · simp [transport_operation, hj, he, hns, ha]
  · simp [transport_operation, hj, he, hns, ha, soapNs, soap12Ns]
  · simp [transport_operation, hj, he, hns, ha, soapNs, soap12Ns, httpNs]
  · simp [transport_operation, hj, he, hns, h1, h2, h3]

/-- Claim C4 (witness): a SOAP 1.1 nested operation with
`soapAction="urn:Foo"` classifies as `Soap("urn:Foo")`, and a node with
no nested operation element yields `MissingElement("operation")`. -/
theorem c4_witness :
    transport_operation dC4 0 = Except.ok (.Soap "urn:Foo")
  ∧ transport_operation dC4 1 = Except.error (.MissingElement "operation") := by
  constructor
  · exact (((c4_transport_classifier dC4 0).2 1 _ (by decide) rfl).2.1) "urn:Foo" rfl (by decide)
  · exact (c4_transport_classifier dC4 1).1 (by decide)

/-- Claim C5: `Binding.port_type()` fails with `MissingAttribute("type")`
when the `type` attribute is absent; otherwise, once the reference is
split and the enclosing definitions found, an unmatched local name fails
with `InvalidReference(portTypeName)` and a match returns the first
`portType` child (in document order) whose `name` equals the reference's
local name. -/
theorem c5_binding_port_type (d : XDoc) (fuel b : Nat) :
    (attrOf d b "type" = none →
      WsBinding.port_type d fuel b = .error ⟨b, .MalformedWsdl (.MissingAttribute "type")⟩)
  ∧ (∀ t q defi, attrOf d b "type" = some t → split_qualified t = .ok q →
      WsDefinitions.find_parent d fuel b = .ok defi →
      ((tagChildren d defi wsdlNs "portType").find?
          (fun n => attrOf d n "name" == some q.2) = none →
        WsBinding.port_type d fuel b = .error ⟨b, .InvalidReference q.2⟩)
    ∧ (∀ pt, (tagChildren d defi wsdlNs "portType").find?
          (fun n => attrOf d n "name" == some q.2) = some pt →
        WsBinding.port_type d fuel b = .ok pt ∧ attrOf d pt "name" = some q.2)) := by
  refine ⟨fun h => by simp [WsBinding.port_type, h],
    fun t q defi ht hs hp => ⟨fun hn => ?_, fun pt hpt => ⟨?_, ?_⟩⟩⟩
  · simp [WsBinding.port_type, ht, hs, hp, WsDefinitions.port_types, hn]
  · simp [WsBinding.port_type, ht, hs, hp, WsDefinitions.port_types, hpt]
  · have h := List.find?_some hpt
    exact eq_of_beq (by simpa using h)

/-- Claim C5 (witness): a resolvable binding returns its portType, a
binding without a `type` attribute fails with `MissingAttribute`. -/
theorem c5_witness :
    WsBinding.port_type dC5 9 2 = Except.ok 1
  ∧ WsBinding.port_type dC5 9 3 = Except.error ⟨3, .MalformedWsdl (.MissingAttribute "type")⟩ := by
  constructor
  · exact (((c5_binding_port_type dC5 9 2).2 "tns:PT" (some "tns", "PT") 0
      (by decide) (by decide) (by decide)).2 1 (by decide)).1
  · exact (c5_binding_port_type dC5 9 3).1 (by decide)

/-- Claim C6: `BindingOperation.port_operation()` moves exactly one
parent level up (failing with `NoParentNode` at the node itself when no
parent exists), resolves the parent binding's portType, and returns the
first operation there whose name equals the binding operation's name,
failing with `MissingElement(operationName)` when none matches. -/
theorem c6_port_operation (d : XDoc) (fuel i : Nat) :
    (∀ nm, WsBindingOperation.name d i = .ok nm → parentOf d i = none →
      WsBindingOperation.port_operation d fuel i = .error ⟨i, .NoParentNode⟩)
  ∧ (∀ nm b pt ops, WsBindingOperation.name d i = .ok nm → parentOf d i = some b →
      WsBinding.port_type d fuel b = .ok pt →
      WsPortType.operations d pt = .ok ops →
      ((∀ o ∈ ops, ∃ s, WsPortOperation.name d o = .ok s ∧ s ≠ nm) →
        WsBindingOperation.port_operation d fuel i
          = .error ⟨i, .MalformedWsdl (.MissingElement nm)⟩)
    ∧ (∀ l₁ op l₂, ops = l₁ ++ op :: l₂ →
        (∀ o ∈ l₁, ∃ s, WsPortOperation.name d o = .ok s ∧ s ≠ nm) →
        WsPortOperation.name d op = .ok nm →
        WsBindingOperation.port_operation d fuel i = .ok op)) := by
  refine ⟨fun nm hnm hp => ?_,
    fun nm b pt ops hnm hp hpt hops => ⟨fun hall => ?_, fun l₁ op l₂ hsp hall hop => ?_⟩⟩
  · simp [WsBindingOperation.port_operation, hnm, hp]
  · simp [WsBindingOperation.port_operation, hnm, hp, hpt, hops,
      findOpLoop_not_found d i nm ops hall]
  · simp [WsBindingOperation.port_operation, hnm, hp, hpt, hops, hsp,
      findOpLoop_found d i nm l₁ op l₂ hall hop]

/-- Claim C6 (witness): the binding operation `Op` resolves through its
parent binding's portType to the port operation of the same name. -/
theorem c6_witness : WsBindingOperation.port_operation dC6 9 4 = Except.ok 2 :=
  ((c6_port_operation dC6 9 4).2 "Op" 3 1 [2] (by decide) (by decide) (by decide)
    (by decide)).2 [] 2 [] (by decide) (by simp) (by decide)

/-- Claim C7: targetNamespace lookup walks strictly upward and returns
the value held by the nearest ancestor declaring the attribute, however
many levels up; when no ancestor declares it, the error is
`MissingAttribute("targetNamespace")` carrying the original call-site
node's identity. `WsPortType::target_namespace` delegates to the same
walk. -/
theorem c7_target_namespace (d : XDoc) (fuel i : Nat) :
    (∀ v, (ancChain d fuel (parentOf d i)).findSome?
        (fun j => attrOf d j "targetNamespace") = some v →
      target_namespace d fuel i = .ok v ∧ WsPortType.target_namespace d fuel i = .ok v)
  ∧ ((ancChain d fuel (parentOf d i)).findSome?
        (fun j => attrOf d j "targetNamespace") = none →
      target_namespace d fuel i
        = .error ⟨i, .MalformedWsdl (.MissingAttribute "targetNamespace")⟩
      ∧ WsPortType.target_namespace d fuel i
        = .error ⟨i, .MalformedWsdl (.MissingAttribute "targetNamespace")⟩) := by
  constructor
  · intro v hv
    have h := tnClimb_eq_findSome d fuel (parentOf d i)
    rw [hv] at h
    exact ⟨by simp [target_namespace, h], by simp [WsPortType.target_namespace, h]⟩
  · intro hn
    have h := tnClimb_eq_findSome d fuel (parentOf d i)
    rw [hn] at h
    exact ⟨by simp [target_namespace, h], by simp [WsPortType.target_namespace, h]⟩

/-- Claim C7 (witness): the attribute two levels up is found, and the
error on the attribute-free document carries the call-site node id 1. -/
theorem c7_witness :
    target_namespace dC7 9 2 = Except.ok "TNS"
  ∧ WsPortType.target_namespace dC7 9 2 = Except.ok "TNS"
  ∧ target_namespace dC7e 9 1
      = Except.error ⟨1, .MalformedWsdl (.MissingAttribute "targetNamespace")⟩ :=
  ⟨((c7_target_namespace dC7 9 2).1 "TNS" (by decide)).1,
   ((c7_target_namespace dC7 9 2).1 "TNS" (by decide)).2,
   ((c7_target_namespace dC7e 9 1).2 (by decide)).1⟩

/-- Claim C8: every collection accessor is a pure function of the tree
(no cached state exists in the embedding, so two successive calls are
definitionally the same term and hence structurally equal); substantively,
each accessor succeeds and returns a subsequence of the node's children
in document order containing exactly the tag-matching ones. -/
theorem c8_collection_accessors (d : XDoc) (i : Nat) :
    (∃ ls, WsDefinitions.services d i = .ok ls ∧ ls.Sublist (childList d i) ∧
      ∀ j, j ∈ ls ↔ j ∈ childList d i ∧ hasTagName d j wsdlNs "service" = true)
  ∧ (∃ ls, WsDefinitions.messages d i = .ok ls ∧ ls.Sublist (childList d i) ∧
      ∀ j, j ∈ ls ↔ j ∈ childList d i ∧ hasTagName d j wsdlNs "message" = true)
  ∧ (∃ ls, WsDefinitions.bindings d i = .ok ls ∧ ls.Sublist (childList d i) ∧
      ∀ j, j ∈ ls ↔ j ∈ childList d i ∧ hasTagName d j wsdlNs "binding" = true)
  ∧ (∃ ls, WsDefinitions.port_types d i = .ok ls ∧ ls.Sublist (childList d i) ∧
      ∀ j, j ∈ ls ↔ j ∈ childList d i ∧ hasTagName d j wsdlNs "portType" = true)
  ∧ ((WsMessage.parts d i).Sublist (childList d i) ∧
      ∀ j, j ∈ WsMessage.parts d i ↔ j ∈ childList d i ∧ hasTagName d j wsdlNs "part" = true)
  ∧ (∃ ls, WsPortType.operations d i = .ok ls ∧ ls.Sublist (childList d i) ∧
      ∀ j, j ∈ ls ↔ j ∈ childList d i ∧ hasTagName d j wsdlNs "operation" = true)
  ∧ (∃ ls, WsService.ports d i = .ok ls ∧ ls.Sublist (childList d i) ∧
      ∀ j, j ∈ ls ↔ j ∈ childList d i ∧ hasTagName d j wsdlNs "port" = true) :=
  ⟨⟨_, rfl, (tagChildren_spec d i wsdlNs "service").1, (tagChildren_spec d i wsdlNs "service").2⟩,
   ⟨_, rfl, (tagChildren_spec d i wsdlNs "message").1, (tagChildren_spec d i wsdlNs "message").2⟩,
   ⟨_, rfl, (tagChildren_spec d i wsdlNs "binding").1, (tagChildren_spec d i wsdlNs "binding").2⟩,
   ⟨_, rfl, (tagChildren_spec d i wsdlNs "portType").1, (tagChildren_spec d i wsdlNs "portType").2⟩,
   ⟨(tagChildren_spec d i wsdlNs "part").1, (tagChildren_spec d i wsdlNs "part").2⟩,
   ⟨_, rfl, (tagChildren_spec d i wsdlNs "operation").1, (tagChildren_spec d i wsdlNs "operation").2⟩,
   ⟨_, rfl, (tagChildren_spec d i wsdlNs "port").1, (tagChildren_spec d i wsdlNs "port").2⟩⟩

/-- Claim C8 (witness): at the concrete document the services accessor
returns an order-preserving filtered subsequence of the children. -/
theorem c8_witness :
    ∃ ls, WsDefinitions.services dC8 0 = Except.ok ls ∧ ls.Sublist (childList dC8 0) ∧
      ∀ j, j ∈ ls ↔ j ∈ childList dC8 0 ∧ hasTagName dC8 j wsdlNs "service" = true :=
  (c8_collection_accessors dC8 0).1

/-- Claim C9: for each of the eight entity types, `name()` returns the
value of the `name` attribute verbatim and fails with
`MissingAttribute("name")` exactly when the attribute is absent. -/
theorem c9_name_accessors (d : XDoc) (i : Nat) :
    (∀ v, attrOf d i "name" = some v →
      WsMessage.name d i = .ok v ∧ WsMessagePart.name d i = .ok v
      ∧ WsPortType.name d i = .ok v ∧ WsPortOperation.name d i = .ok v
      ∧ WsBinding.name d i = .ok v ∧ WsBindingOperation.name d i = .ok v
      ∧ WsService.name d i = .ok v ∧ WsServicePort.name d i = .ok v)
  ∧ (attrOf d i "name" = none →
      WsMessage.name d i = .error ⟨i, .MalformedWsdl (.MissingAttribute "name")⟩
      ∧ WsMessagePart.name d i = .error ⟨i, .MalformedWsdl (.MissingAttribute "name")⟩
      ∧ WsPortType.name d i = .error ⟨i, .MalformedWsdl (.MissingAttribute "name")⟩
      ∧ WsPortOperation.name d i = .error ⟨i, .MalformedWsdl (.MissingAttribute "name")⟩
      ∧ WsBinding.name d i = .error ⟨i, .MalformedWsdl (.MissingAttribute "name")⟩
      ∧ WsBindingOperation.name d i = .error ⟨i, .MalformedWsdl (.MissingAttribute "name")⟩
      ∧ WsService.name d i = .error ⟨i, .MalformedWsdl (.MissingAttribute "name")⟩
      ∧ WsServicePort.name d i = .error ⟨i, .MalformedWsdl (.MissingAttribute "name")⟩) := by
  constructor
  · intro v h
    refine ⟨?_, ?_, ?_, ?_, ?_, ?_, ?_, ?_⟩ <;>
      simp [WsMessage.name, WsMessagePart.name, WsPortType.name, WsPortOperation.name,
        WsBinding.name, WsBindingOperation.name, WsService.name, WsServicePort.name, h]
  · intro h
    refine ⟨?_, ?_, ?_, ?_, ?_, ?_, ?_, ?_⟩ <;>
      simp [WsMessage.name, WsMessagePart.name, WsPortType.name, WsPortOperation.name,
        WsBinding.name, WsBindingOperation.name, WsService.name, WsServicePort.name, h]

/-- Claim C9 (witness): a `name` attribute value with surrounding
whitespace is returned untrimmed by every entity's accessor. -/
theorem c9_witness :
    WsMessage.name dC9 0 = Except.ok " Weather "
  ∧ WsServicePort.name dC9 0 = Except.ok " Weather " :=
  ⟨((c9_name_accessors dC9 0).1 " Weather " (by decide)).1,
   ((c9_name_accessors dC9 0).1 " Weather " (by decide)).2.2.2.2.2.2.2⟩

/-- Claim C10: `typename()` resolves the `element` attribute whenever it
is present, regardless of any `type` attribute; when both are absent the
error names `type`. -/
theorem c10_typename (d : XDoc) (i : Nat) :
    (∀ ev, attrOf d i "element" = some ev →
      WsMessagePart.typename d i = mapErr i (resolve_qualified d i ev))
  ∧ (attrOf d i "element" = none → attrOf d i "type" = none →
      WsMessagePart.typename d i = .error ⟨i, .MalformedWsdl (.MissingAttribute "type")⟩) := by
  constructor
  · intro ev h
    simp [WsMessagePart.typename, h, Option.orElse]
  · intro h1 h2
    simp [WsMessagePart.typename, h1, h2, Option.orElse]

/-- Claim C10 (witness): with `element="a:Foo"` and `type="b:Bar"` both
present, the resolved typename comes from `element`. -/
theorem c10_witness :
    WsMessagePart.typename dC10 0 = Except.ok ⟨some "UA", "Foo"⟩
  ∧ attrOf dC10 0 "type" = some "b:Bar" :=
  ⟨by rw [(c10_typename dC10 0).1 "a:Foo" (by decide)]; decide, by decide⟩
